import Mathlib

/-!
Verification development for the andromeda example scripts.

The repository contains three source files:

* `src/examples/fizzbuzz.ts` — a FizzBuzz loop over `i = 1..100` that builds a
  label string (`"Fizz"` when `i % 3 === 0`, appending `"Buzz"` when
  `i % 5 === 0`, falling back to `i.toString()` when the label is empty),
  prints each label, and measures the elapsed time with two
  `performance.now()` calls around the loop.
* `src/unnamed/part_001` — a second FizzBuzz loop over `i = 1..100`, identical
  except that the numeric fallback is expressed as `console.log(output || i)`
  (JavaScript `||` yields `i` exactly when `output` is the empty string, the
  only falsy string).
* `src/unnamed/part_000` — the `performance` namespace whose single member
  `now()` returns `internal_now()`, a host-provided time primitive.

The clock is modelled with explicit state passing: the host primitive is an
abstract function from a read index to either a rational timestamp (standing
for the floating-point millisecond reading) or a `ClockUnavailable` failure,
and the process state records how many clock reads have happened together
with an arbitrary `shared` component for all other process-wide state.
-/

/-- Decimal string representation of a natural number, the model of
JavaScript's `i.toString()` for the loop counter (and of `console.log(i)`
rendering a number). `Nat.repr` produces the usual base-10 numeral with no
leading zeros. -/
def decimal (i : Nat) : String :=
  Nat.repr i

/-- The label computed by the loop body of `src/examples/fizzbuzz.ts`:
start from `output = ""`, append `"Fizz"` when `i % 3 === 0`, append
`"Buzz"` when `i % 5 === 0`, and replace an empty `output` by
`i.toString()` before printing. -/
def fizzbuzzTsLine (i : Nat) : String :=
  let output := ""
  let output := if i % 3 = 0 then output ++ "Fizz" else output
  let output := if i % 5 = 0 then output ++ "Buzz" else output
  let output := if output = "" then decimal i else output
  output

/-- JavaScript `output || i` as printed by `console.log` in
`src/unnamed/part_001`: the empty string is the only falsy string, so the
expression evaluates to `output` when it is non-empty and otherwise to the
number `i`, which `console.log` renders in decimal. -/
def jsOrNum (output : String) (i : Nat) : String :=
  if output = "" then decimal i else output

/-- The line printed for `i` by the loop of `src/unnamed/part_001`:
the same `"Fizz"`/`"Buzz"` accumulation, printed via `output || i`. -/
def part001Line (i : Nat) : String :=
  let output := ""
  let output := if i % 3 = 0 then output ++ "Fizz" else output
  let output := if i % 5 = 0 then output ++ "Buzz" else output
  jsOrNum output i

/-- The full list of lines printed by the `1..100` loop of
`src/examples/fizzbuzz.ts`. -/
def fizzbuzzTsOutput : List String :=
  (List.range' 1 100).map fizzbuzzTsLine

/-- The full list of lines printed by the `1..100` loop of
`src/unnamed/part_001`. -/
def part001Output : List String :=
  (List.range' 1 100).map part001Line

/-- The single failure kind of the host time source: the spec's
`ClockUnavailable`. -/
inductive ClockError : Type
  | clockUnavailable : ClockError
deriving DecidableEq, Repr

/-- A host time primitive: for each read (indexed by how many reads have
already happened in this process execution) it yields either a rational
millisecond timestamp or a `ClockUnavailable` failure. This is the
injectable time-source capability underlying `internal_now`. -/
def HostClock : Type :=
  Nat → Except ClockError ℚ

/-- Process state: the number of host-clock reads performed so far in this
execution, together with an arbitrary `shared` component standing for every
other piece of process-wide state. -/
structure ProcState (σ : Type) : Type where
  clockTick : Nat
  shared : σ

/-- The host primitive `internal_now()`: read the host clock at the current
read index and advance the read index. It touches nothing but the read
counter. -/
def internal_now {σ : Type} (host : HostClock) (s : ProcState σ) :
    Except ClockError ℚ × ProcState σ :=
  (host s.clockTick, { s with clockTick := s.clockTick + 1 })

/-- `performance.now()` from `src/unnamed/part_000`: its body is exactly
`return internal_now();`. -/
def performance_now {σ : Type} (host : HostClock) (s : ProcState σ) :
    Except ClockError ℚ × ProcState σ :=
  internal_now host s

/-- Two successive calls `t1 = now(); t2 = now();` in the same execution,
returning both results and the final state. -/
def nowTwice {σ : Type} (host : HostClock) (s : ProcState σ) :
    (Except ClockError ℚ × Except ClockError ℚ) × ProcState σ :=
  let r1 := performance_now host s
  let r2 := performance_now host r1.2
  ((r1.1, r2.1), r2.2)

/-- A host clock is monotone when, among its successful readings, a later
read never yields a smaller value than an earlier read. -/
def MonotoneHost (host : HostClock) : Prop :=
  ∀ i j v w, i ≤ j → host i = Except.ok v → host j = Except.ok w → v ≤ w

/-- A host clock is non-negative when every successful reading is `≥ 0`. -/
def NonnegHost (host : HostClock) : Prop :=
  ∀ i v, host i = Except.ok v → 0 ≤ v

/-- The timed program of `src/examples/fizzbuzz.ts`:
`start = performance.now()`, the `1..100` FizzBuzz loop (which performs no
clock reads), `end = performance.now()`, reporting the printed lines, the
two timestamps and the elapsed time `end - start`. A clock failure at
either read propagates. -/
def timedFizzbuzz {σ : Type} (host : HostClock) (s : ProcState σ) :
    Except ClockError (List String × ℚ × ℚ × ℚ) × ProcState σ :=
  match performance_now host s with
  | (Except.error e, s1) => (Except.error e, s1)
  | (Except.ok tStart, s1) =>
    let lines := fizzbuzzTsOutput
    match performance_now host s1 with
    | (Except.error e, s2) => (Except.error e, s2)
    | (Except.ok tEnd, s2) => (Except.ok (lines, tStart, tEnd, tEnd - tStart), s2)

/-- An always-failing host clock, used as a concrete witness input. -/
def failingHost : HostClock :=
  fun _ => Except.error ClockError.clockUnavailable

/-- The host clock whose `k`-th reading is the rational `k`, used as a
concrete monotone, non-negative witness input. -/
def tickHost : HostClock :=
  fun k => Except.ok (k : ℚ)

/-- An initial process state with trivial shared component. -/
def initState : ProcState Unit :=
  { clockTick := 0, shared := () }

/-- The host clock `tickHost` is monotone: its `k`-th reading is `k`. -/
lemma tickHost_monotone : MonotoneHost tickHost := by
  intro i j v w hij hv hw
  simp only [tickHost, Except.ok.injEq] at hv hw
  subst hv; subst hw
  exact_mod_cast hij

/-- The host clock `tickHost` only yields non-negative readings. -/
lemma tickHost_nonneg : NonnegHost tickHost := by
  intro i v hv
  simp only [tickHost, Except.ok.injEq] at hv
  subst hv
  exact Nat.cast_nonneg i

/-- The decimal digit list of a natural number is never empty. -/
lemma toDigits_length_pos (n : Nat) : 0 < (Nat.toDigits 10 n).length := by
  show 0 < (Nat.toDigitsCore 10 (n + 1) n []).length
  simp only [Nat.toDigitsCore]
  split
  · simp
  · rw [Nat.toDigitsCore_lens_eq]
    exact Nat.succ_pos _

/-- The decimal representation of a natural number is never the empty
string. -/
lemma decimal_ne_empty (n : Nat) : decimal n ≠ "" := by
  intro h
  have h0 : (decimal n).length = 0 := by rw [h]; rfl
  have h1 : (decimal n).length = (Nat.toDigits 10 n).length := rfl
  have h2 := toDigits_length_pos n
  omega

/-- C1: for `i = 1..15`, both FizzBuzz loops produce exactly the sequence
`1, 2, Fizz, 4, Buzz, Fizz, 7, 8, Fizz, Buzz, 11, Fizz, 13, 14, FizzBuzz`,
in that order (the first fifteen lines of each program's output). -/
theorem fizzbuzz_first_fifteen :
    fizzbuzzTsOutput.take 15 =
      ["1", "2", "Fizz", "4", "Buzz", "Fizz", "7", "8", "Fizz", "Buzz", "11",
        "Fizz", "13", "14", "FizzBuzz"] ∧
    part001Output.take 15 =
      ["1", "2", "Fizz", "4", "Buzz", "Fizz", "7", "8", "Fizz", "Buzz", "11",
        "Fizz", "13", "14", "FizzBuzz"] := by
  decide

/-- C2: `performance.now()` is a pure pass-through of the host primitive
`internal_now()`: for every host clock and process state, the call returns
exactly what `internal_now` returns (value and state alike), with no
rounding, scaling or other transformation, so any fractional part of the
host reading is preserved. -/
theorem now_is_pass_through {σ : Type} (host : HostClock) (s : ProcState σ) :
    performance_now host s = internal_now host s :=
  rfl

/-- C3: when the host primitive fails with `ClockUnavailable`,
`performance.now()` propagates that failure unchanged, and in particular it
does not return a substituted default `Except.ok` value such as zero. -/
theorem now_propagates_failure {σ : Type} (host : HostClock) (s : ProcState σ)
    (e : ClockError) (h : host s.clockTick = Except.error e) :
    (performance_now host s).1 = Except.error e ∧
    ∀ v : ℚ, (performance_now host s).1 ≠ Except.ok v := by
  refine ⟨h, ?_⟩
  intro v hv
  rw [show (performance_now host s).1 = host s.clockTick from rfl, h] at hv
  exact Except.noConfusion hv

/-- Witness for C3: the always-failing host clock really makes
`performance.now()` return the `ClockUnavailable` error. -/
theorem now_propagates_failure_witness :
    failingHost initState.clockTick = Except.error ClockError.clockUnavailable ∧
    (performance_now failingHost initState).1
      = Except.error ClockError.clockUnavailable :=
  ⟨rfl,
    (now_propagates_failure failingHost initState ClockError.clockUnavailable
      rfl).1⟩

/-- C4: two successive calls `t1 = now(); t2 = now();` in the same
execution satisfy `t2 >= t1`, under the hypothesis that the host clock is
monotonically non-decreasing (the component adds no protection of its
own). -/
theorem now_monotone {σ : Type} (host : HostClock) (s : ProcState σ)
    (hmono : MonotoneHost host) (t1 t2 : ℚ)
    (h1 : (nowTwice host s).1.1 = Except.ok t1)
    (h2 : (nowTwice host s).1.2 = Except.ok t2) : t1 ≤ t2 :=
  hmono s.clockTick (s.clockTick + 1) t1 t2 (Nat.le_succ _) h1 h2

/-- Witness for C4: with the monotone host clock `tickHost` the two
successive readings from the initial state are `0` and `1`, and `0 ≤ 1`. -/
theorem now_monotone_witness :
    MonotoneHost tickHost ∧
    (nowTwice tickHost initState).1.1 = Except.ok ((0 : Nat) : ℚ) ∧
    (nowTwice tickHost initState).1.2 = Except.ok ((1 : Nat) : ℚ) ∧
    ((0 : Nat) : ℚ) ≤ ((1 : Nat) : ℚ) :=
  ⟨tickHost_monotone, rfl, rfl,
    now_monotone tickHost initState tickHost_monotone _ _ rfl rfl⟩

/-- C5: every successful `performance.now()` reading is non-negative,
under the hypothesis that the host primitive yields non-negative
readings. -/
theorem now_nonneg {σ : Type} (host : HostClock) (s : ProcState σ)
    (hpos : NonnegHost host) (t : ℚ)
    (h : (performance_now host s).1 = Except.ok t) : 0 ≤ t :=
  hpos s.clockTick t h

/-- Witness for C5: with the non-negative host clock `tickHost` the first
reading is `0`, which is `≥ 0`. -/
theorem now_nonneg_witness :
    NonnegHost tickHost ∧
    (performance_now tickHost initState).1 = Except.ok ((0 : Nat) : ℚ) ∧
    (0 : ℚ) ≤ ((0 : Nat) : ℚ) :=
  ⟨tickHost_nonneg, rfl, now_nonneg tickHost initState tickHost_nonneg _ rfl⟩

/-- C6: for every `i` in `1..100` divisible by neither 3 nor 5, the label
printed for `i` is exactly the decimal string representation of `i`
(`Nat.repr`, which has no leading zeros and no extraneous characters), in
both FizzBuzz variants, including the one printing `output || i`. -/
theorem fallback_decimal (i : Nat) (hlo : 1 ≤ i) (hhi : i ≤ 100)
    (h3 : i % 3 ≠ 0) (h5 : i % 5 ≠ 0) :
    fizzbuzzTsLine i = decimal i ∧ part001Line i = decimal i := by
  constructor <;> simp [fizzbuzzTsLine, part001Line, jsOrNum, h3, h5]

/-- Witness for C6: `i = 7` is in range, divisible by neither 3 nor 5, and
both variants print `"7"`, the decimal representation of `7`. -/
theorem fallback_decimal_witness :
    (1 ≤ 7 ∧ 7 ≤ 100 ∧ 7 % 3 ≠ 0 ∧ 7 % 5 ≠ 0) ∧
    fizzbuzzTsLine 7 = decimal 7 ∧ part001Line 7 = decimal 7 :=
  ⟨by decide, fallback_decimal 7 (by decide) (by decide) (by decide) (by decide)⟩

/-- C7: in the timed FizzBuzz program of `src/examples/fizzbuzz.ts`, with
`start = performance.now()` before the `1..100` loop and
`end = performance.now()` after it, the reported elapsed time satisfies
`end - start >= 0`, under the hypothesis that the host clock is
monotonically non-decreasing. -/
theorem timed_elapsed_nonneg {σ : Type} (host : HostClock) (s : ProcState σ)
    (hmono : MonotoneHost host) (lines : List String) (t1 t2 d : ℚ)
    (h : (timedFizzbuzz host s).1 = Except.ok (lines, t1, t2, d)) :
    0 ≤ t2 - t1 ∧ d = t2 - t1 := by
  cases hr1 : host s.clockTick with
  | error e =>
    simp [timedFizzbuzz, performance_now, internal_now, hr1] at h
  | ok a =>
    cases hr2 : host (s.clockTick + 1) with
    | error e =>
      simp [timedFizzbuzz, performance_now, internal_now, hr1, hr2] at h
    | ok b =>
      simp [timedFizzbuzz, performance_now, internal_now, hr1, hr2] at h
      obtain ⟨hl, ha, hb, hd⟩ := h
      subst ha; subst hb; subst hd
      have hab := hmono s.clockTick (s.clockTick + 1) a b (Nat.le_succ _) hr1 hr2
      exact ⟨by linarith, rfl⟩

/-- Witness for C7: with the monotone host clock `tickHost`, the timed run
from the initial state yields `start = 0`, `end = 1` around the 100 printed
lines, and the elapsed time `1 - 0` is non-negative. -/
theorem timed_elapsed_nonneg_witness :
    MonotoneHost tickHost ∧
    (timedFizzbuzz tickHost initState).1
      = Except.ok (fizzbuzzTsOutput, ((0 : Nat) : ℚ), ((1 : Nat) : ℚ),
          ((1 : Nat) : ℚ) - ((0 : Nat) : ℚ)) ∧
    (0 : ℚ) ≤ ((1 : Nat) : ℚ) - ((0 : Nat) : ℚ) :=
  ⟨tickHost_monotone, rfl,
    (timed_elapsed_nonneg tickHost initState tickHost_monotone fizzbuzzTsOutput
      _ _ _ rfl).1⟩

/-- C8: `performance.now()` has no observable side effect: it leaves the
shared process-wide state untouched, so every stateless operation `f` over
that shared state returns the same value whether or not a `now()` call
precedes it. -/
theorem now_no_observable_effect {σ α : Type} (f : σ → α) (host : HostClock)
    (s : ProcState σ) :
    (performance_now host s).2.shared = s.shared ∧
    f (performance_now host s).2.shared = f s.shared :=
  ⟨rfl, rfl⟩

/-- C9: the two FizzBuzz programs are output-equivalent over the shared
range: for every `i` in `1..100`, the line printed by
`src/examples/fizzbuzz.ts` (fallback `output = i.toString()`) equals the
line printed by `src/unnamed/part_001` (fallback `console.log(output || i)`). -/
theorem variants_agree (i : Nat) (hlo : 1 ≤ i) (hhi : i ≤ 100) :
    fizzbuzzTsLine i = part001Line i :=
  rfl

/-- Witness for C9: at `i = 15`, in range, both variants print the same
line. -/
theorem variants_agree_witness :
    (1 ≤ 15 ∧ 15 ≤ 100) ∧ fizzbuzzTsLine 15 = part001Line 15 :=
  ⟨by decide, variants_agree 15 (by decide) (by decide)⟩

/-- C10: for every `i` in `1..100`, neither loop ever prints the empty
string: when `i` is divisible by 3 or 5 the label is `"Fizz"`, `"Buzz"` or
`"FizzBuzz"`, and otherwise the non-empty decimal representation of `i` is
substituted before printing. -/
theorem lines_never_empty (i : Nat) (hlo : 1 ≤ i) (hhi : i ≤ 100) :
    (fizzbuzzTsLine i ≠ "" ∧ part001Line i ≠ "") ∧
    ((i % 3 = 0 ∨ i % 5 = 0) →
      (fizzbuzzTsLine i = "Fizz" ∨ fizzbuzzTsLine i = "Buzz" ∨
        fizzbuzzTsLine i = "FizzBuzz")) ∧
    (¬(i % 3 = 0 ∨ i % 5 = 0) →
      fizzbuzzTsLine i = decimal i ∧ part001Line i = decimal i) := by
  by_cases h3 : i % 3 = 0 <;> by_cases h5 : i % 5 = 0 <;>
    simp [fizzbuzzTsLine, part001Line, jsOrNum, h3, h5, decimal_ne_empty]

/-- Witness for C10: at `i = 15`, in range, both lines are the non-empty
label `"FizzBuzz"` and the divisibility case analysis holds. -/
theorem lines_never_empty_witness :
    (1 ≤ 15 ∧ 15 ≤ 100) ∧
    (fizzbuzzTsLine 15 ≠ "" ∧ part001Line 15 ≠ "") ∧
    ((15 % 3 = 0 ∨ 15 % 5 = 0) →
      (fizzbuzzTsLine 15 = "Fizz" ∨ fizzbuzzTsLine 15 = "Buzz" ∨
        fizzbuzzTsLine 15 = "FizzBuzz")) ∧
    (¬(15 % 3 = 0 ∨ 15 % 5 = 0) →
      fizzbuzzTsLine 15 = decimal 15 ∧ part001Line 15 = decimal 15) :=
  ⟨by decide, lines_never_empty 15 (by decide) (by decide)⟩
